import Mathlib

/-!
Verification development for the QR check-in resilient synchronization
subsystem. The definitions below are a shallow embedding of the TypeScript
sources:

* `src/qr-checkin-app/src/lib/error-handler.ts` (error classifier),
* `src/qr-checkin-app/src/lib/network-resilience.ts` (resilient-execution
  wrapper and bounded failed-operation map),
* the offline storage module (`storeOfflineOperation`, `getOfflineOperations`,
  `removeOfflineOperation`, `incrementRetryCount`, `getRetryableOperations`),
* the offline sync service (`triggerSync`, `syncCheckInOperation`,
  `getSyncStats`),
* `src/qr-checkin-app/src/lib/database.ts` (`getCheckInStatus`,
  `checkInAttendee`) and
  `src/qr-checkin-app/src/lib/checkin-service.ts` (`processCheckIn`).

Modelling conventions: JavaScript numbers are rationals (`Rat`; the code never
produces NaN or Infinity on the modelled paths), `Number.isInteger q` is
`q.den = 1`, `undefined`/`null` fields are `Option`, a JS `Map` is an
insertion-ordered association list with pairwise distinct keys, and fallible
code returns `Except`. Diagnostic-only fields that carry no control-flow
meaning (random error ids, wall-clock `timestamp` on errors, the free-form
`context` map, log output) are elided; identifier generation
(`Date.now()` plus a random suffix) is passed in as an argument. Whether a
wrapped callable was actually invoked is recorded explicitly in the outcome
records so that never-invoked claims are expressible.
-/

/-! ### Error classifier (`error-handler.ts`) -/

/-- Categories of failures, from `ErrorCategory` in `error-handler.ts`. -/
inductive ErrorCategory where
  | NETWORK
  | DATABASE
  | VALIDATION
  | CAMERA
  | QR_SCANNING
  | PERMISSION
  | UNKNOWN
deriving DecidableEq, Repr

/-- Severity levels, from `ErrorSeverity` in `error-handler.ts`. -/
inductive ErrorSeverity where
  | LOW
  | MEDIUM
  | HIGH
  | CRITICAL
deriving DecidableEq, Repr

/-- Standardized application error, from the `AppError` interface. The
random `id`, wall-clock `timestamp` and free-form `context` fields are
diagnostic only and elided. -/
structure AppError where
  category : ErrorCategory
  severity : ErrorSeverity
  message : String
  userMessage : String
  details : Option String
  code : Option String
  retryable : Bool
deriving DecidableEq, Repr

/-- Entry of the `ERROR_CODE_MAPPING` table. -/
structure ErrorMapping where
  category : ErrorCategory
  severity : ErrorSeverity
  userMessage : String
deriving DecidableEq, Repr

/-- The static `ERROR_CODE_MAPPING` table of `error-handler.ts`, as a
partial lookup from error code to category, severity and user message. -/
def ERROR_CODE_MAPPING (code : String) : Option ErrorMapping :=
  if code = "NETWORK_ERROR" then
    some ⟨.NETWORK, .HIGH,
      "Network connection issue. Please check your internet connection and try again."⟩
  else if code = "TIMEOUT_ERROR" then
    some ⟨.NETWORK, .MEDIUM, "Request timed out. Please try again."⟩
  else if code = "CONNECTION_ERROR" then
    some ⟨.NETWORK, .HIGH,
      "Unable to connect to the server. Please check your connection."⟩
  else if code = "DATABASE_ERROR" then
    some ⟨.DATABASE, .HIGH, "Database error occurred. Please try again in a moment."⟩
  else if code = "NOT_FOUND" then
    some ⟨.DATABASE, .LOW, "The requested record was not found."⟩
  else if code = "DUPLICATE_ENTRY" then
    some ⟨.DATABASE, .LOW, "This record already exists."⟩
  else if code = "VALIDATION_ERROR" then
    some ⟨.VALIDATION, .LOW, "Please check your input and try again."⟩
  else if code = "INVALID_INPUT" then
    some ⟨.VALIDATION, .LOW, "Invalid input provided. Please correct and try again."⟩
  else if code = "CAMERA_PERMISSION_DENIED" then
    some ⟨.PERMISSION, .MEDIUM,
      "Camera permission is required to scan QR codes. Please allow camera access."⟩
  else if code = "CAMERA_NOT_FOUND" then
    some ⟨.CAMERA, .MEDIUM,
      "No camera found on this device. Please use manual search instead."⟩
  else if code = "CAMERA_ERROR" then
    some ⟨.CAMERA, .MEDIUM,
      "Camera error occurred. Please try again or use manual search."⟩
  else if code = "QR_DECODE_ERROR" then
    some ⟨.QR_SCANNING, .LOW,
      "Unable to read QR code. Please ensure the code is clear and try again."⟩
  else if code = "INVALID_QR_FORMAT" then
    some ⟨.QR_SCANNING, .LOW,
      "Invalid QR code format. Please scan a valid booking QR code."⟩
  else
    none

/-- Codes the default retry configuration deems retryable
(`DEFAULT_RETRY_CONFIG.retryableErrors`). -/
def retryableErrors : List String :=
  ["NETWORK_ERROR", "TIMEOUT_ERROR", "CONNECTION_ERROR", "TEMPORARY_ERROR", "RATE_LIMIT_ERROR"]

/-- The `createError` method of `ErrorHandler`: looks up the code in the
mapping table, defaulting category to UNKNOWN, severity to MEDIUM and the
user message to the raw message when the code is absent or unmapped. -/
def createError (message : String) (code : Option String) (details : Option String) : AppError :=
  let mapping := match code with
    | some c => ERROR_CODE_MAPPING c
    | none => none
  { category := match mapping with
      | some m => m.category
      | none => .UNKNOWN
    severity := match mapping with
      | some m => m.severity
      | none => .MEDIUM
    message := message
    userMessage := match mapping with
      | some m => m.userMessage
      | none => message
    details := details
    code := code
    retryable := match code with
      | some c => retryableErrors.contains c
      | none => false }

/-- Thrown JavaScript value as seen by a `catch` block: either a genuine
`Error` instance (with `name`, `message`, `stack`) or a plain thrown
`AppError` object (which is not an `Error` instance). -/
inductive Thrown where
  | jsErr (name message : String)
  | appErr (e : AppError)
deriving DecidableEq, Repr

/-- The `fromError` method of `ErrorHandler` restricted to `Error`
instances: `createError(error.message, error.name, error.stack)`. The stack
string is diagnostic and modelled as absent. -/
def fromError (name message : String) : AppError :=
  createError message (some name) none

/-- Classification performed by catch blocks of the form
`error instanceof Error ? errorHandler.fromError(error, ...) : error as AppError`. -/
def classifyCaught : Thrown → AppError
  | .jsErr name message => fromError name message
  | .appErr e => e

/-- Predicate for application errors that were actually produced by
`createError` (every `AppError` in the running system is). It pins the
derived fields (category, severity, user message, retryable flag) to the
code, ruling out impossible combinations such as a VALIDATION category with
a NETWORK_ERROR code. -/
def CreatedError (e : AppError) : Prop :=
  e = createError e.message e.code e.details

instance (e : AppError) : Decidable (CreatedError e) := by
  unfold CreatedError; infer_instance

/-- Database error surface (`DatabaseError` in `types/database.ts`). -/
structure DatabaseError where
  message : String
  code : Option String
  details : Option String
deriving DecidableEq, Repr

/-- The `createDatabaseError` helper of `database.ts`: builds an `AppError`
via `createError` and projects out its user message, code and details. -/
def createDatabaseError (message : String) (code : Option String) (details : Option String) :
    DatabaseError :=
  let appError := createError message code details
  ⟨appError.userMessage, appError.code, appError.details⟩

/-- The `fromDatabaseError` method of `ErrorHandler`:
`createError(dbError.message, dbError.code, dbError.details)`. -/
def fromDatabaseError (dbError : DatabaseError) : AppError :=
  createError dbError.message dbError.code dbError.details

/-! ### Resilient-execution wrapper (`network-resilience.ts`) -/

/-- Network status enum from `network-resilience.ts`. -/
inductive NetworkStatus where
  | ONLINE
  | OFFLINE
  | SLOW
  | UNKNOWN
deriving DecidableEq, Repr

/-- Entry of the in-memory failed-operation map (`FailedOperation` in
`network-resilience.ts`). The opaque retryable callable itself carries no
data relevant to the claims and is elided; `lastAttempt` is a timestamp. -/
structure FailedOperation where
  id : String
  retryCount : Nat
  maxRetries : Nat
  lastAttempt : Nat
  error : AppError
deriving DecidableEq, Repr

/-- Insertion-ordered association-list model of a JavaScript `Map`:
`set` overwrites an existing key in place, otherwise appends. -/
def mapSet (m : List (String × FailedOperation)) (k : String) (v : FailedOperation) :
    List (String × FailedOperation) :=
  if m.any (fun p => p.1 = k) then
    m.map (fun p => if p.1 = k then (k, v) else p)
  else
    m ++ [(k, v)]

/-- Model of `Map.delete`: removes the entry with the given key. -/
def mapDelete (m : List (String × FailedOperation)) (k : String) :
    List (String × FailedOperation) :=
  m.filter (fun p => p.1 ≠ k)

/-- The `MAX_FAILED_OPERATIONS` cap of `NetworkResilience`. -/
def MAX_FAILED_OPERATIONS : Nat := 50

/-- The private `addToRetryQueue` method: when the map already holds at
least the cap, the oldest (first-inserted) key is deleted, then the new
operation is stored under its id. -/
def addToRetryQueue (m : List (String × FailedOperation)) (op : FailedOperation) :
    List (String × FailedOperation) :=
  let m1 :=
    if MAX_FAILED_OPERATIONS ≤ m.length then
      match m.head? with
      | some (oldestId, _) => mapDelete m oldestId
      | none => m
    else m
  mapSet m1 op.id op

/-- The private `isNetworkError` method: NETWORK category, or one of the
three network-ish codes. -/
def isNetworkError (e : AppError) : Bool :=
  e.category = ErrorCategory.NETWORK ||
    (match e.code with
      | some c => ["NETWORK_ERROR", "TIMEOUT_ERROR", "CONNECTION_ERROR"].contains c
      | none => false)

/-- Options of `executeWithResilience`; the defaults in the source are
`retryOnReconnect = true`, `maxRetries = 3` and a generated operation id. -/
structure ExecOptions where
  retryOnReconnect : Bool := true
  maxRetries : Nat := 3
  operationId : String
deriving DecidableEq, Repr

/-- Outcome of one `executeWithResilience` call: the settled promise, the
failed-operation map afterwards, and whether the wrapped callable was
invoked. -/
structure ExecOutcome (T : Type) where
  result : Except AppError T
  failedOps : List (String × FailedOperation)
  operationInvoked : Bool

/-- The error created on the offline fast-fail path of
`executeWithResilience`. -/
def offlineError : AppError :=
  createError "Operation failed: No network connection" (some "NETWORK_ERROR")
    (some "Device is currently offline")

/-- Shallow embedding of `NetworkResilience.executeWithResilience`. Inputs:
the current network status and failed-operation map, the current time
(`new Date()` at registration), the options, and the behavior of the wrapped
callable when invoked (`Except.error t` models a throw of `t`). When the
status is OFFLINE the callable is never invoked: an offline NETWORK error is
created, registered under the operation id when `retryOnReconnect` holds,
and thrown (the catch block re-classifies it to itself, since it is a plain
`AppError` object, and its retry-queue condition is false because the status
is OFFLINE). Otherwise the callable runs once; success deletes any stale
entry for the id, failure classifies the thrown value, registers it when it
is a network error with `retryOnReconnect`, and rethrows it. -/
def executeWithResilience {T : Type} (status : NetworkStatus)
    (failedOps : List (String × FailedOperation)) (now : Nat) (opts : ExecOptions)
    (opBehavior : Except Thrown T) : ExecOutcome T :=
  if status = NetworkStatus.OFFLINE then
    let fo :=
      if opts.retryOnReconnect then
        addToRetryQueue failedOps
          ⟨opts.operationId, 0, opts.maxRetries, now, offlineError⟩
      else failedOps
    ⟨.error offlineError, fo, false⟩
  else
    match opBehavior with
    | .ok v => ⟨.ok v, mapDelete failedOps opts.operationId, true⟩
    | .error t =>
        let appError := classifyCaught t
        let fo :=
          if opts.retryOnReconnect ∧ isNetworkError appError ∧
              status ≠ NetworkStatus.OFFLINE then
            addToRetryQueue failedOps
              ⟨opts.operationId, 0, opts.maxRetries, now, appError⟩
          else failedOps
        ⟨.error appError, fo, true⟩

/-! ### Durable offline queue (`offline-storage` module) -/

/-- Tag identifying which handler replays a persisted operation. -/
inductive OpType where
  | checkin
  | search
deriving DecidableEq, Repr

/-- Payload of a persisted operation. Check-in payloads carry
`{bookingId, actualGuests, timestamp}`; search payloads are read-only and
never replayed, so their content is opaque. -/
inductive OpData where
  | checkinData (bookingId actualGuests : ℚ) (timestamp : String)
  | searchData
deriving DecidableEq, Repr

/-- Persisted offline operation (`OfflineOperation` interface). -/
structure OfflineOperation where
  id : String
  type : OpType
  data : OpData
  timestamp : Nat
  retryCount : Nat
  maxRetries : Nat
deriving DecidableEq, Repr

/-- The `MAX_RETRY_COUNT` constant of the offline storage module. -/
def MAX_RETRY_COUNT : Nat := 3

/-- The `storeOfflineOperation` function: appends a fresh entry with
`retryCount = 0` and `maxRetries = 3` and returns its id. The generated id
(`Date.now()` plus a random suffix) and the creation time are arguments. -/
def storeOfflineOperation (ops : List OfflineOperation) (newId : String) (now : Nat)
    (type : OpType) (data : OpData) : String × List OfflineOperation :=
  (newId, ops ++ [⟨newId, type, data, now, 0, MAX_RETRY_COUNT⟩])

/-- The `removeOfflineOperation` function: filters out the entry with the
given id. -/
def removeOfflineOperation (ops : List OfflineOperation) (operationId : String) :
    List OfflineOperation :=
  ops.filter (fun op => op.id ≠ operationId)

/-- Applies `f` to the first entry with the given id, matching the source
pattern of mutating the object returned by `find` and then persisting the
whole list. -/
def updateFirst (ops : List OfflineOperation) (operationId : String)
    (f : OfflineOperation → OfflineOperation) : List OfflineOperation :=
  match ops with
  | [] => []
  | op :: rest =>
      if op.id = operationId then f op :: rest
      else op :: updateFirst rest operationId f

/-- The `incrementRetryCount` function: returns `false` and leaves storage
unchanged when the id is absent; otherwise increments the entry's retry
count, and either removes the entry and returns `false` (when the new count
reached `maxRetries`) or persists the increment and returns `true`. -/
def incrementRetryCount (ops : List OfflineOperation) (operationId : String) :
    Bool × List OfflineOperation :=
  match ops.find? (fun op => op.id = operationId) with
  | none => (false, ops)
  | some op =>
      if op.maxRetries ≤ op.retryCount + 1 then
        (false, removeOfflineOperation ops operationId)
      else
        (true, updateFirst ops operationId (fun o => { o with retryCount := o.retryCount + 1 }))

/-- The `getRetryableOperations` function: entries whose retry count is
still below their budget, in storage (insertion) order. -/
def getRetryableOperations (ops : List OfflineOperation) : List OfflineOperation :=
  ops.filter (fun op => op.retryCount < op.maxRetries)

/-- Iterates `incrementRetryCount` on the same id, modelling repeated
failed replay attempts. -/
def iterIncrement (k : Nat) (ops : List OfflineOperation) (operationId : String) :
    List OfflineOperation :=
  match k with
  | 0 => ops
  | k + 1 => iterIncrement k (incrementRetryCount ops operationId).2 operationId

/-! ### Sync orchestrator (`offline-sync` module) -/

/-- Result of the `fetch` call made by `syncCheckInOperation`: either an
HTTP response with a status code (`response.ok` means a 2xx status) or a
thrown network failure. -/
inductive FetchOutcome where
  | response (status : Nat)
  | networkFailure (message : String)
deriving DecidableEq, Repr

/-- The `SyncResult` interface. `retryAfter` is optional; `0` is falsy in
the `result.retryAfter` truthiness test of `triggerSync`. -/
structure SyncResult where
  success : Bool
  operationId : String
  error : Option String
  retryAfter : Option ℚ
deriving DecidableEq, Repr

/-- JavaScript truthiness of the optional `retryAfter` number. -/
def jsTruthyOptNum : Option ℚ → Bool
  | none => false
  | some d => d ≠ 0

/-- The `getExponentialBackoffDelay` method:
`min(1000 * 2 ^ retryCount, 30000)` plus a jitter of `rand * 0.1 * delay`
where `rand` models the fresh `Math.random()` sample. -/
def getExponentialBackoffDelay (rand : ℚ) (retryCount : Nat) : ℚ :=
  let baseDelay : ℚ := 1000
  let maxDelay : ℚ := 30000
  let delay := min (baseDelay * 2 ^ retryCount) maxDelay
  delay + rand * (1 / 10) * delay

/-- The `syncCheckInOperation` method: a 2xx response is success; a 409 is
a failure with `retryAfter = 0` (no scheduled retry); a 5xx or a thrown
network failure is a failure with a backoff `retryAfter`; any other status
is a client error with `retryAfter = 0`. The interpolated `statusText` in
the error strings is diagnostic and replaced by fixed text. -/
def syncCheckInOperation (rand : ℚ) (outcome : FetchOutcome) (op : OfflineOperation) :
    SyncResult :=
  match outcome with
  | .networkFailure msg =>
      ⟨false, op.id, some msg, some (getExponentialBackoffDelay rand op.retryCount)⟩
  | .response status =>
      if 200 ≤ status ∧ status < 300 then ⟨true, op.id, none, none⟩
      else if status = 409 then
        ⟨false, op.id, some "Record already checked in", some 0⟩
      else if 500 ≤ status then
        ⟨false, op.id, some "Server error", some (getExponentialBackoffDelay rand op.retryCount)⟩
      else
        ⟨false, op.id, some "Client error", some 0⟩

/-- The `syncOperation` dispatcher: `checkin` operations are replayed via
`syncCheckInOperation` (the `respond` argument models the fetch of the
`/api/checkin` endpoint); `search` operations are read-only successes. Both
constructors of `OpType` are covered, so the `default: throw` branch of the
source is unreachable in the model. -/
def syncOperation (rand : ℚ) (respond : OfflineOperation → FetchOutcome)
    (op : OfflineOperation) : SyncResult :=
  match op.type with
  | .checkin => syncCheckInOperation rand (respond op) op
  | .search => ⟨true, op.id, none, none⟩

/-- The `SyncStats` interface. -/
structure SyncStats where
  totalOperations : Nat
  successfulSyncs : Nat
  failedSyncs : Nat
  pendingOperations : Nat
deriving DecidableEq, Repr

/-- The `getSyncStats` method: both totals are the number of currently
retryable persisted operations, and the success or failure counters are the
literal zeros of the source. -/
def getSyncStats (ops : List OfflineOperation) : SyncStats :=
  let operations := getRetryableOperations ops
  ⟨operations.length, 0, 0, operations.length⟩

/-- State of the `OfflineSyncService` relevant to a drain pass: the online
flag, the drain-in-flight flag, the persisted queue and the pending retry
timeouts (`retryTimeouts`, as id and delay pairs). -/
structure SyncState where
  isOnline : Bool
  isSyncing : Bool
  ops : List OfflineOperation
  scheduled : List (String × ℚ)
deriving DecidableEq, Repr

/-- Loop body of `triggerSync` over the snapshot of retryable operations:
success removes the entry from storage and clears its retry timeout;
failure increments its retry count (which evicts it at budget) and, only
when the increment says to keep retrying and `retryAfter` is truthy,
schedules a retry timeout (replacing any pending one for that id). -/
def triggerSyncLoop (rand : ℚ) (respond : OfflineOperation → FetchOutcome) :
    List OfflineOperation → List OfflineOperation → List (String × ℚ) →
      List OfflineOperation × List (String × ℚ)
  | [], ops, sched => (ops, sched)
  | op :: rest, ops, sched =>
      let result := syncOperation rand respond op
      if result.success then
        triggerSyncLoop rand respond rest (removeOfflineOperation ops op.id)
          (sched.filter (fun p => p.1 ≠ op.id))
      else
        let step := incrementRetryCount ops op.id
        let sched1 :=
          if step.1 ∧ jsTruthyOptNum result.retryAfter then
            sched.filter (fun p => p.1 ≠ op.id) ++ [(op.id, result.retryAfter.getD 0)]
          else sched
        triggerSyncLoop rand respond rest step.2 sched1

/-- Outcome of one `triggerSync` call: the returned stats, the state
afterwards, and the stats passed to the sync listeners (`none` on the early
return taken while already syncing or offline). -/
structure SyncPassOutcome where
  stats : SyncStats
  state : SyncState
  notified : Option SyncStats
deriving DecidableEq, Repr

/-- The `triggerSync` method: returns current stats untouched when a drain
is already in flight or the device is offline; otherwise drains the
snapshot of retryable operations, recomputes stats from the resulting
storage, notifies the listeners with those stats and returns them. -/
def triggerSync (rand : ℚ) (respond : OfflineOperation → FetchOutcome) (st : SyncState) :
    SyncPassOutcome :=
  if st.isSyncing ∨ ¬st.isOnline then
    ⟨getSyncStats st.ops, st, none⟩
  else
    let snapshot := getRetryableOperations st.ops
    let drained := triggerSyncLoop rand respond snapshot st.ops st.scheduled
    let stats := getSyncStats drained.1
    ⟨stats, { st with ops := drained.1, scheduled := drained.2, isSyncing := false },
      some stats⟩

/-! ### Check-in domain service (`database.ts` and `checkin-service.ts`) -/

/-- JavaScript `Number.isInteger` on the rational model of numbers. -/
def jsIsInteger (q : ℚ) : Bool := q.den = 1

/-- Registration record (`BookingRecord` in `types/database.ts`) restricted
to the fields the modelled functions read or write; the remaining immutable
booking fields (email, contact number, event window and so on) are never
touched by the check-in path. `attended_at` and `actual_num_guests` are
nullable in the schema. -/
structure BookingRecord where
  id : ℚ
  koalender_id : String
  name : String
  num_guests : ℚ
  is_attended : Bool
  attended_at : Option String
  actual_num_guests : Option ℚ
deriving DecidableEq, Repr

/-- Check-in request (`CheckInRequest` in `types/database.ts`). -/
structure CheckInRequest where
  bookingId : ℚ
  actualGuests : ℚ
  timestamp : String
deriving DecidableEq, Repr

/-- Prior attendance data echoed on a duplicate check-in. The source reads
`currentBooking.attended_at!` (so a missing value flows through as
undefined, modelled as `none`) and coalesces `actual_num_guests` with
`|| 0`. -/
structure PreviousCheckIn where
  attendedAt : Option String
  actualGuests : ℚ
deriving DecidableEq, Repr

/-- Result of `checkInAttendee` (`CheckInResult` in `types/database.ts`);
the optional fields are undefined on failure paths. -/
structure CheckInResult where
  success : Bool
  booking : Option BookingRecord
  error : Option DatabaseError
  isDuplicateCheckIn : Option Bool
  previousCheckIn : Option PreviousCheckIn
deriving DecidableEq, Repr

/-- Result of `getCheckInStatus`. -/
structure CheckInStatusResult where
  isCheckedIn : Bool
  booking : Option BookingRecord
  error : Option DatabaseError
deriving DecidableEq, Repr

/-- The attendance write performed by the `update` call of
`checkInAttendee`: unconditionally overwrites the three attendance fields. -/
def applyCheckInWrite (r : BookingRecord) (timestamp : String) (actualGuests : ℚ) :
    BookingRecord :=
  { r with is_attended := true
           attended_at := some timestamp
           actual_num_guests := some actualGuests }

/-- The store-side effect of `update(...).eq('id', bookingId)`: every row
with the matching id (the one row, ids being the primary key) is
overwritten. -/
def dbUpdateStore (store : List BookingRecord) (bookingId : ℚ) (timestamp : String)
    (actualGuests : ℚ) : List BookingRecord :=
  store.map (fun r => if r.id = bookingId then applyCheckInWrite r timestamp actualGuests else r)

/-- The `getCheckInStatus` function of `database.ts`. The single-row select
goes through the resilience wrapper: when the network status is OFFLINE the
wrapper throws its NETWORK error before the query runs, and the catch block
maps it to a generic database error keeping the NETWORK_ERROR code; when a
row with the id exists it is returned with its attendance flag; otherwise
the supabase client throws PGRST116, mapped to a NOT_FOUND error. -/
def getCheckInStatus (net : NetworkStatus) (store : List BookingRecord) (bookingId : ℚ) :
    CheckInStatusResult :=
  if net = NetworkStatus.OFFLINE then
    ⟨false, none,
      some (createDatabaseError "Failed to check booking status" (some "NETWORK_ERROR")
        (some offlineError.message))⟩
  else
    match store.find? (fun r => r.id = bookingId) with
    | some r => ⟨r.is_attended, some r, none⟩
    | none =>
        ⟨false, none,
          some (createDatabaseError "Booking not found" (some "NOT_FOUND")
            (some "The booking record could not be found in the database"))⟩

/-- Outcome of one `checkInAttendee` call: the returned result, the store
afterwards, and whether the update statement was issued at all. -/
structure CheckInAttendeeOutcome where
  result : CheckInResult
  store : List BookingRecord
  updateInvoked : Bool
deriving DecidableEq, Repr

/-- Shallow embedding of `checkInAttendee` in `database.ts`. Validation of
`actualGuests` (negative, non-integer, above 999) fails first with a
VALIDATION_ERROR and no store access. Then the current record is read via
`getCheckInStatus` for duplicate detection; a read error is returned as is.
The update then runs through the resilience wrapper (whose offline throw is
unreachable here, the read having already failed in that case, but is kept
for faithfulness) and unconditionally overwrites the attendance fields; on
success the result reports whether the read observed `is_attended` already
true and, if so, echoes the prior `attended_at` and `actual_num_guests`
coalesced with `|| 0`. -/
def checkInAttendee (net : NetworkStatus) (store : List BookingRecord)
    (request : CheckInRequest) : CheckInAttendeeOutcome :=
  if request.actualGuests < 0 then
    ⟨⟨false, none,
      some (createDatabaseError "Guest count must be a positive number"
        (some "VALIDATION_ERROR") (some "Please enter a valid number of guests")),
      none, none⟩, store, false⟩
  else if ¬jsIsInteger request.actualGuests then
    ⟨⟨false, none,
      some (createDatabaseError "Guest count must be a whole number"
        (some "VALIDATION_ERROR") (some "Please enter a valid whole number of guests")),
      none, none⟩, store, false⟩
  else if 999 < request.actualGuests then
    ⟨⟨false, none,
      some (createDatabaseError "Guest count is too high"
        (some "VALIDATION_ERROR") (some "Guest count cannot exceed 999")),
      none, none⟩, store, false⟩
  else
    let statusResult := getCheckInStatus net store request.bookingId
    match statusResult.error with
    | some e => ⟨⟨false, none, some e, none, none⟩, store, false⟩
    | none =>
        match statusResult.booking with
        | none =>
            -- Unreachable: getCheckInStatus returns a booking whenever it
            -- returns no error; mirrors the non-null assertion in the source.
            ⟨⟨false, none,
              some (createDatabaseError "Booking not found" (some "NOT_FOUND")
                (some "The booking record could not be found in the database")),
              none, none⟩, store, false⟩
        | some currentBooking =>
            let isDuplicateCheckIn := statusResult.isCheckedIn
            if net = NetworkStatus.OFFLINE then
              ⟨⟨false, none,
                some (createDatabaseError "Failed to check in attendee"
                  (some "NETWORK_ERROR") (some offlineError.message)),
                none, none⟩, store, false⟩
            else
              match store.find? (fun r => r.id = request.bookingId) with
              | none =>
                  -- PGRST116 from the post-update single-row select.
                  ⟨⟨false, none,
                    some (createDatabaseError "Booking not found" (some "NOT_FOUND")
                      (some "The booking record could not be found in the database")),
                    none, none⟩, store, true⟩
              | some r =>
                  let updatedBooking :=
                    applyCheckInWrite r request.timestamp request.actualGuests
                  ⟨⟨true, some updatedBooking, none, some isDuplicateCheckIn,
                    if isDuplicateCheckIn then
                      some ⟨currentBooking.attended_at,
                        currentBooking.actual_num_guests.getD 0⟩
                    else none⟩,
                    dbUpdateStore store request.bookingId request.timestamp
                      request.actualGuests,
                    true⟩

/-- Result of `processCheckIn` (`CheckInProcessingResult` in
`checkin-service.ts`). -/
structure CheckInProcessingResult where
  success : Bool
  booking : Option BookingRecord
  error : Option AppError
  isDuplicateCheckIn : Option Bool
  previousCheckIn : Option PreviousCheckIn
  retryCount : Nat
  isOffline : Bool
  offlineOperationId : Option String
deriving DecidableEq, Repr

/-- Outcome of one `processCheckIn` call: the returned result, the record
store and the durable offline queue afterwards, and whether the store
update was issued. -/
structure ProcessCheckInOutcome where
  result : CheckInProcessingResult
  store : List BookingRecord
  queue : List OfflineOperation
  updateInvoked : Bool
deriving DecidableEq, Repr

/-- Shallow embedding of `processCheckIn` in `checkin-service.ts`. Its own
validation rejects a falsy or non-positive `bookingId` and a negative or
non-integer `actualGuests` with VALIDATION errors, touching nothing. The
check-in then runs through the resilience wrapper: when the network status
is OFFLINE the wrapper throws its NETWORK error before `checkInAttendee` is
ever invoked, and the catch block — seeing a NETWORK_ERROR code — persists
the exact payload to the durable offline queue and reports the operation as
pending. Otherwise `checkInAttendee` runs (it never throws: its failures are
returned in the result), and a failed result is converted to an `AppError`
via `fromDatabaseError`. `newOpId` and `opNow` model the generated id and
creation time of the queued operation; `now` is the request timestamp. -/
def processCheckIn (net : NetworkStatus) (store : List BookingRecord)
    (queue : List OfflineOperation) (bookingId actualGuests : ℚ) (now : String)
    (newOpId : String) (opNow : Nat) : ProcessCheckInOutcome :=
  if bookingId = 0 ∨ bookingId ≤ 0 then
    ⟨⟨false, none,
      some (createError "Invalid booking ID" (some "VALIDATION_ERROR")
        (some "Booking ID must be a positive number")),
      none, none, 0, false, none⟩, store, queue, false⟩
  else if actualGuests < 0 ∨ ¬jsIsInteger actualGuests then
    ⟨⟨false, none,
      some (createError "Invalid guest count" (some "VALIDATION_ERROR")
        (some "Guest count must be a non-negative integer")),
      none, none, 0, false, none⟩, store, queue, false⟩
  else
    let checkInRequest : CheckInRequest := ⟨bookingId, actualGuests, now⟩
    if net = NetworkStatus.OFFLINE then
      let queued := storeOfflineOperation queue newOpId opNow .checkin
        (.checkinData bookingId actualGuests now)
      ⟨⟨false, none, some offlineError, none, none, 0, true, some queued.1⟩,
        store, queued.2, false⟩
    else
      let out := checkInAttendee net store checkInRequest
      if out.result.success then
        ⟨⟨true, out.result.booking, none, out.result.isDuplicateCheckIn,
          out.result.previousCheckIn, 0, false, none⟩, out.store, queue,
          out.updateInvoked⟩
      else
        let appError := match out.result.error with
          | some e => fromDatabaseError e
          | none => createError "Check-in failed" (some "UNKNOWN_ERROR") none
        ⟨⟨false, none, some appError, none, none, 0, false, none⟩, out.store, queue,
          out.updateInvoked⟩

/-! ### Raw storage read (`getOfflineOperations` over the serialized string)

The queue functions above work at the level of the decoded operation list;
the serialization round-trip through `localStorage` is the identity at that
level. The read path itself, `getOfflineOperations`, is modelled here at
the string level to capture its behavior on corrupt storage: it evaluates
`stored ? JSON.parse(stored) : []` inside a try/catch whose handler returns
the empty list, so it is total (never throws) but returns whatever JSON
value the stored string parses to, unchecked. `JSON.parse` is a platform
primitive modelled from the JSON grammar, restricted to the constructs the
stored payloads can contain: literals, decimal numbers, escape-free
strings, arrays and objects. -/

/-- JSON values. -/
inductive Json where
  | null
  | bool (b : Bool)
  | num (q : ℚ)
  | str (s : String)
  | arr (elems : List Json)
  | obj (members : List (String × Json))
deriving Repr

/-- Opening brace character. -/
def lbraceChar : Char := Char.ofNat 123

/-- Closing brace character. -/
def rbraceChar : Char := Char.ofNat 125

/-- Drops leading JSON whitespace. -/
def skipWs : List Char → List Char
  | c :: cs => if c = ' ' ∨ c = '\t' ∨ c = '\n' ∨ c = '\r' then skipWs cs else c :: cs
  | [] => []

/-- Decimal digit test. -/
def isDigitChar (c : Char) : Bool := '0' ≤ c ∧ c ≤ '9'

/-- Splits off a maximal run of leading digits. -/
def takeDigits : List Char → List Char × List Char
  | c :: cs =>
      if isDigitChar c then
        let r := takeDigits cs
        (c :: r.1, r.2)
      else ([], c :: cs)
  | [] => ([], [])

/-- Numeric value of a digit run. -/
def digitsVal (ds : List Char) : Nat :=
  ds.foldl (fun a c => a * 10 + (c.toNat - Char.toNat '0')) 0

/-- Parses a JSON number (optional sign, digits, optional fraction). -/
def parseNumber (cs : List Char) : Option (ℚ × List Char) :=
  let signed := match cs with
    | '-' :: t => (true, t)
    | _ => (false, cs)
  let ds := takeDigits signed.2
  if ds.1 = [] then none
  else
    let intPart : ℚ := digitsVal ds.1
    match ds.2 with
    | '.' :: cs3 =>
        let fs := takeDigits cs3
        if fs.1 = [] then none
        else
          let v := intPart + (digitsVal fs.1 : ℚ) / (10 ^ fs.1.length)
          some (if signed.1 then -v else v, fs.2)
    | rest => some (if signed.1 then -intPart else intPart, rest)

/-- Reads the body of a quoted string up to the closing quote; escape
sequences are outside the modelled subset. -/
def takeStringChars : List Char → Option (List Char × List Char)
  | [] => none
  | c :: cs =>
      if c = '"' then some ([], cs)
      else if c = '\\' then none
      else do
        let r ← takeStringChars cs
        some (c :: r.1, r.2)

/-- Consumes an expected literal character sequence. -/
def dropLit : List Char → List Char → Option (List Char)
  | [], cs => some cs
  | l :: ls, c :: cs => if c = l then dropLit ls cs else none
  | _ :: _, [] => none

mutual

/-- Fueled recursive-descent parser for a JSON value. -/
def parseValue : Nat → List Char → Option (Json × List Char)
  | 0, _ => none
  | fuel + 1, cs =>
      match skipWs cs with
      | [] => none
      | c :: rest =>
          if c = 'n' then (dropLit ['u', 'l', 'l'] rest).map (fun r => (Json.null, r))
          else if c = 't' then (dropLit ['r', 'u', 'e'] rest).map (fun r => (Json.bool true, r))
          else if c = 'f' then
            (dropLit ['a', 'l', 's', 'e'] rest).map (fun r => (Json.bool false, r))
          else if c = '"' then
            (takeStringChars rest).map (fun r => (Json.str (String.mk r.1), r.2))
          else if c = '[' then
            match skipWs rest with
            | c2 :: r2 =>
                if c2 = ']' then some (Json.arr [], r2)
                else do
                  let v ← parseValue fuel (c2 :: r2)
                  let vs ← parseElems fuel v.2
                  some (Json.arr (v.1 :: vs.1), vs.2)
            | [] => none
          else if c = lbraceChar then
            match skipWs rest with
            | c2 :: r2 =>
                if c2 = rbraceChar then some (Json.obj [], r2)
                else do
                  let m ← parseMember fuel (c2 :: r2)
                  let ms ← parseMembers fuel m.2
                  some (Json.obj (m.1 :: ms.1), ms.2)
            | [] => none
          else if isDigitChar c ∨ c = '-' then
            (parseNumber (c :: rest)).map (fun r => (Json.num r.1, r.2))
          else none

/-- Parses the continuation of an array: comma-separated values up to the
closing bracket. -/
def parseElems : Nat → List Char → Option (List Json × List Char)
  | 0, _ => none
  | fuel + 1, cs =>
      match skipWs cs with
      | c :: r =>
          if c = ']' then some ([], r)
          else if c = ',' then do
            let v ← parseValue fuel r
            let vs ← parseElems fuel v.2
            some (v.1 :: vs.1, vs.2)
          else none
      | [] => none

/-- Parses one object member: a quoted key, a colon and a value. -/
def parseMember : Nat → List Char → Option ((String × Json) × List Char)
  | 0, _ => none
  | fuel + 1, cs =>
      match skipWs cs with
      | c :: r =>
          if c = '"' then do
            let k ← takeStringChars r
            match skipWs k.2 with
            | ':' :: r2 => do
                let v ← parseValue fuel r2
                some ((String.mk k.1, v.1), v.2)
            | _ => none
          else none
      | [] => none

/-- Parses the continuation of an object: comma-separated members up to the
closing brace. -/
def parseMembers : Nat → List Char → Option (List (String × Json) × List Char)
  | 0, _ => none
  | fuel + 1, cs =>
      match skipWs cs with
      | c :: r =>
          if c = rbraceChar then some ([], r)
          else if c = ',' then do
            let m ← parseMember fuel r
            let ms ← parseMembers fuel m.2
            some (m.1 :: ms.1, ms.2)
          else none
      | [] => none

end

/-- Model of `JSON.parse`: parses one value and requires only whitespace to
remain; `none` models a thrown `SyntaxError`. The fuel bound is generous
enough for any input consumed character by character. -/
def jsonParse (s : String) : Option Json :=
  let cs := s.toList
  match parseValue (2 * cs.length + 2) cs with
  | some (v, rest) => if skipWs rest = [] then some v else none
  | none => none

/-- The `getOfflineOperations` function at the string level: a missing or
empty stored value (both falsy) yields the empty array, a parse failure is
caught and yields the empty array, and otherwise the parsed JSON value is
returned unchecked. -/
def getOfflineOperations (stored : Option String) : Json :=
  match stored with
  | none => Json.arr []
  | some s => if s = "" then Json.arr [] else (jsonParse s).getD (Json.arr [])

/-! ### Concrete inputs used by witnesses -/

/-- Returns whether a JSON value is an array. -/
def jsonIsArr : Json → Bool
  | .arr _ => true
  | _ => false

/-- A failed-operation map holding exactly the cap of 50 entries with
pairwise distinct keys. -/
def fiftyFailedOps : List (String × FailedOperation) :=
  (List.range 50).map (fun i => ("k" ++ toString i, ⟨"k" ++ toString i, 0, 3, i, offlineError⟩))

/-! ### Sanity checks of the embedding on concrete inputs -/

example : (createError "x" (some "NETWORK_ERROR") none).category = .NETWORK := by decide

example : (createError "x" (some "VALIDATION_ERROR") none).retryable = false := by decide

example : (createError "x" none none).category = .UNKNOWN := by decide

example :
    (executeWithResilience (T := Nat) .OFFLINE [] 7 ⟨true, 3, "op1"⟩ (.ok 5)).operationInvoked
      = false := by decide

example :
    ((executeWithResilience (T := Nat) .OFFLINE [] 7 ⟨true, 3, "op1"⟩ (.ok 5)).failedOps.map
      Prod.fst) = ["op1"] := by decide

example :
    (executeWithResilience (T := Nat) .ONLINE [] 7 ⟨true, 3, "op1"⟩ (.ok 5)).result = .ok 5 :=
  rfl

example :
    (incrementRetryCount [⟨"a", .checkin, .searchData, 0, 2, 3⟩] "a").1 = false := by decide

example :
    (incrementRetryCount [⟨"a", .checkin, .searchData, 0, 1, 3⟩] "a") =
      (true, [⟨"a", .checkin, .searchData, 0, 2, 3⟩]) := by decide

example :
    (processCheckIn .ONLINE [] [] 1 (-1) "t" "id" 0).result.error.map (·.category) =
      some .VALIDATION := by decide

example :
    (processCheckIn .OFFLINE [] [] 1 1000 "t" "id" 0).result.error.map (·.category) =
      some .NETWORK := by decide

example :
    ((processCheckIn .OFFLINE [] [] 1 1000 "t" "id" 0).queue).length = 1 := by decide

example : jsonParse "5" = some (Json.num 5) := by rfl

example : jsonParse "not json" = none := by rfl

example : jsonParse "[1, 2]" = some (Json.arr [Json.num 1, Json.num 2]) := by rfl

example : getOfflineOperations (some "5") = Json.num 5 := by rfl

/-! ### Helper lemmas -/

theorem mapSet_mem (m : List (String × FailedOperation)) (k : String) (v : FailedOperation) :
    (k, v) ∈ mapSet m k v := by
  unfold mapSet
  split
  · rename_i h
    rw [List.any_eq_true] at h
    obtain ⟨p, hp, hpk⟩ := h
    have hk : p.1 = k := by simpa using hpk
    exact List.mem_map.mpr ⟨p, hp, by simp [hk]⟩
  · simp

theorem addToRetryQueue_mem (m : List (String × FailedOperation)) (op : FailedOperation) :
    (op.id, op) ∈ addToRetryQueue m op := by
  unfold addToRetryQueue
  exact mapSet_mem _ _ _

theorem mapSet_length_le (m : List (String × FailedOperation)) (k : String)
    (v : FailedOperation) : (mapSet m k v).length ≤ m.length + 1 := by
  unfold mapSet
  split
  · simp
  · simp

theorem addToRetryQueue_length_le (m : List (String × FailedOperation)) (op : FailedOperation)
    (h : m.length ≤ MAX_FAILED_OPERATIONS) :
    (addToRetryQueue m op).length ≤ MAX_FAILED_OPERATIONS := by
  unfold addToRetryQueue
  by_cases hcap : MAX_FAILED_OPERATIONS ≤ m.length
  · cases m with
    | nil => simp [MAX_FAILED_OPERATIONS] at hcap
    | cons p rest =>
        simp only [hcap, if_true, List.head?]
        have h1 : (mapDelete (p :: rest) p.1).length ≤ rest.length := by
          unfold mapDelete
          simp only [List.filter_cons]
          have : ¬(p.1 ≠ p.1) := by simp
          simp only [decide_eq_true_eq]
          rw [if_neg this]
          exact List.length_filter_le _ _
        calc (mapSet (mapDelete (p :: rest) p.1) op.id op).length
            ≤ (mapDelete (p :: rest) p.1).length + 1 := mapSet_length_le _ _ _
          _ ≤ rest.length + 1 := by omega
          _ = (p :: rest).length := by simp
          _ ≤ MAX_FAILED_OPERATIONS := h
  · simp only [hcap, if_false]
    have h2 := mapSet_length_le m op.id op
    omega

theorem addToRetryQueue_at_cap (m : List (String × FailedOperation)) (op : FailedOperation)
    (hlen : m.length = MAX_FAILED_OPERATIONS) (hnd : (m.map Prod.fst).Nodup)
    (hnew : op.id ∉ m.map Prod.fst) :
    addToRetryQueue m op = m.tail ++ [(op.id, op)] := by
  cases m with
  | nil => simp [MAX_FAILED_OPERATIONS] at hlen
  | cons p rest =>
      unfold addToRetryQueue
      have hcap : MAX_FAILED_OPERATIONS ≤ (p :: rest).length := hlen.ge
      simp only [hcap, if_true, List.head?]
      have hdel : mapDelete (p :: rest) p.1 = rest := by
        unfold mapDelete
        simp only [List.filter_cons]
        have hno : ¬(p.1 ≠ p.1) := by simp
        simp only [decide_eq_true_eq]
        rw [if_neg hno]
        apply List.filter_eq_self.mpr
        intro q hq
        simp only [List.map_cons, List.nodup_cons] at hnd
        have : q.1 ∈ rest.map Prod.fst := List.mem_map_of_mem _ hq
        simp only [decide_eq_true_eq]
        intro hcontra
        exact hnd.1 (hcontra ▸ this)
      rw [hdel]
      unfold mapSet
      have hany : ¬ rest.any (fun q => q.1 = op.id) = true := by
        rw [List.any_eq_true]
        rintro ⟨q, hq, hqk⟩
        have hk : q.1 = op.id := by simpa using hqk
        apply hnew
        simp only [List.map_cons]
        exact List.mem_cons_of_mem _ (hk ▸ List.mem_map_of_mem _ hq)
      rw [if_neg hany]
      rfl

theorem createError_CreatedError (message : String) (code : Option String)
    (details : Option String) : CreatedError (createError message code details) := rfl

theorem createError_validation_not_network (message : String) (code : Option String)
    (details : Option String)
    (hcat : (createError message code details).category = ErrorCategory.VALIDATION) :
    isNetworkError (createError message code details) = false := by
  cases code with
  | none => simp [createError] at hcat
  | some c =>
      have hc1 : c ≠ "NETWORK_ERROR" := by
        intro h; subst h; simp [createError, ERROR_CODE_MAPPING] at hcat
      have hc2 : c ≠ "TIMEOUT_ERROR" := by
        intro h; subst h; simp [createError, ERROR_CODE_MAPPING] at hcat
      have hc3 : c ≠ "CONNECTION_ERROR" := by
        intro h; subst h; simp [createError, ERROR_CODE_MAPPING] at hcat
      unfold isNetworkError
      rw [hcat]
      simp only [createError]
      simp [hc1, hc2, hc3]

theorem CreatedError.validation_not_network (e : AppError) (h : CreatedError e)
    (hcat : e.category = ErrorCategory.VALIDATION) : isNetworkError e = false := by
  have h2 := createError_validation_not_network e.message e.code e.details
  rw [← h] at h2
  exact h2 hcat

/-! ### Claim theorems -/

/-- C1: for every wrapped operation and options, when the network status is
OFFLINE, `executeWithResilience` never invokes the wrapped operation and
rejects with the NETWORK-category offline error; when `retryOnReconnect` is
true the operation is moreover registered in the failed-operation map under
its operation id (with retry count 0, the requested budget and the current
time) in the same call, before the error reaches the caller. -/
theorem executeWithResilience_offline_fast_fail {T : Type}
    (failedOps : List (String × FailedOperation)) (now : Nat) (opts : ExecOptions)
    (opBehavior : Except Thrown T) :
    (executeWithResilience NetworkStatus.OFFLINE failedOps now opts opBehavior).operationInvoked
        = false ∧
    (executeWithResilience NetworkStatus.OFFLINE failedOps now opts opBehavior).result
        = Except.error offlineError ∧
    offlineError.category = ErrorCategory.NETWORK ∧
    (opts.retryOnReconnect = true →
      (opts.operationId, (⟨opts.operationId, 0, opts.maxRetries, now, offlineError⟩ :
          FailedOperation)) ∈
        (executeWithResilience NetworkStatus.OFFLINE failedOps now opts opBehavior).failedOps) := by
  refine ⟨?_, ?_, by decide, ?_⟩
  · simp [executeWithResilience]
  · simp [executeWithResilience]
  · intro hr
    simp only [executeWithResilience, if_pos rfl, hr, if_true]
    exact addToRetryQueue_mem _ _

/-- Witness for C1 at a concrete offline call. -/
theorem executeWithResilience_offline_fast_fail_witness :
    (executeWithResilience (T := Nat) NetworkStatus.OFFLINE [] 7 ⟨true, 3, "op1"⟩
        (Except.ok 5)).operationInvoked = false ∧
    ("op1", (⟨"op1", 0, 3, 7, offlineError⟩ : FailedOperation)) ∈
      (executeWithResilience (T := Nat) NetworkStatus.OFFLINE [] 7 ⟨true, 3, "op1"⟩
        (Except.ok 5)).failedOps := by
  have h := executeWithResilience_offline_fast_fail (T := Nat) [] 7 ⟨true, 3, "op1"⟩
    (Except.ok 5)
  exact ⟨h.1, h.2.2.2 rfl⟩

/-- C7: for every wrapped operation that throws while the network status is
not OFFLINE, `executeWithResilience` always rethrows the classified error;
it adds the failed-operation entry exactly when `retryOnReconnect` holds and
the classified error is network-category in the sense of `isNetworkError`
(NETWORK category, or code NETWORK_ERROR, TIMEOUT_ERROR or
CONNECTION_ERROR); and when the classified error is VALIDATION-tagged
(thrown `AppError` objects being `createError`-generated) the
failed-operation map is left unchanged, so a validation failure never enters
it. -/
theorem executeWithResilience_failure_classification {T : Type} (status : NetworkStatus)
    (failedOps : List (String × FailedOperation)) (now : Nat) (opts : ExecOptions)
    (t : Thrown) (hst : status ≠ NetworkStatus.OFFLINE)
    (hwf : ∀ e, t = Thrown.appErr e → CreatedError e) :
    (executeWithResilience (T := T) status failedOps now opts (Except.error t)).result
        = Except.error (classifyCaught t) ∧
    (executeWithResilience (T := T) status failedOps now opts (Except.error t)).failedOps
        = (if opts.retryOnReconnect ∧ isNetworkError (classifyCaught t) then
            addToRetryQueue failedOps
              ⟨opts.operationId, 0, opts.maxRetries, now, classifyCaught t⟩
          else failedOps) ∧
    ((classifyCaught t).category = ErrorCategory.VALIDATION →
      (executeWithResilience (T := T) status failedOps now opts (Except.error t)).failedOps
        = failedOps) := by
  have hcreated : CreatedError (classifyCaught t) := by
    cases t with
    | jsErr name message => rfl
    | appErr e => exact hwf e rfl
  refine ⟨?_, ?_, ?_⟩
  · simp [executeWithResilience, hst]
  · simp [executeWithResilience, hst]
  · intro hcat
    have hnet : isNetworkError (classifyCaught t) = false :=
      CreatedError.validation_not_network _ hcreated hcat
    simp [executeWithResilience, hst, hnet]

/-- Witness for C7 at a concrete online call throwing a VALIDATION error:
the failed-operation map stays empty and the error is rethrown. -/
theorem executeWithResilience_failure_classification_witness :
    (executeWithResilience (T := Nat) NetworkStatus.ONLINE [] 7 ⟨true, 3, "op1"⟩
        (Except.error (Thrown.appErr (createError "bad" (some "VALIDATION_ERROR")
          none)))).failedOps = [] ∧
    (executeWithResilience (T := Nat) NetworkStatus.ONLINE [] 7 ⟨true, 3, "op1"⟩
        (Except.error (Thrown.appErr (createError "bad" (some "VALIDATION_ERROR")
          none)))).result
      = Except.error (createError "bad" (some "VALIDATION_ERROR") none) := by
  have h := executeWithResilience_failure_classification (T := Nat) NetworkStatus.ONLINE
    [] 7 ⟨true, 3, "op1"⟩
    (Thrown.appErr (createError "bad" (some "VALIDATION_ERROR") none))
    (by decide) (fun e he => by cases he; exact createError_CreatedError _ _ _)
  exact ⟨h.2.2 (by decide), h.1⟩

/-- C8: the in-memory failed-operation map is bounded by the cap of 50: any
sequence of insertions through `addToRetryQueue` preserves the size bound,
and an insertion of a fresh operation id into a map already holding exactly
the cap evicts the oldest (first-inserted) entry and appends the new one,
keeping the size at the cap. -/
theorem addToRetryQueue_bounded (m : List (String × FailedOperation))
    (inserts : List FailedOperation) (op : FailedOperation) :
    (m.length ≤ MAX_FAILED_OPERATIONS →
      (inserts.foldl addToRetryQueue m).length ≤ MAX_FAILED_OPERATIONS) ∧
    (m.length = MAX_FAILED_OPERATIONS → (m.map Prod.fst).Nodup →
      op.id ∉ m.map Prod.fst →
      addToRetryQueue m op = m.tail ++ [(op.id, op)] ∧
      (addToRetryQueue m op).length = MAX_FAILED_OPERATIONS) := by
  constructor
  · intro hlen
    induction inserts generalizing m with
    | nil => exact hlen
    | cons x xs ih =>
        exact ih (addToRetryQueue m x) (addToRetryQueue_length_le m x hlen)
  · intro hlen hnd hnew
    have heq := addToRetryQueue_at_cap m op hlen hnd hnew
    refine ⟨heq, ?_⟩
    rw [heq]
    cases m with
    | nil => simp [MAX_FAILED_OPERATIONS] at hlen
    | cons p rest =>
        simp only [List.tail_cons, List.length_append, List.length_cons,
          List.length_nil] at *
        omega

/-- Witness for C8 at a concrete map holding exactly 50 distinct entries:
inserting a fresh id keeps the size at 50 and the result is the tail of the
old map with the new entry appended. -/
theorem addToRetryQueue_bounded_witness :
    (addToRetryQueue fiftyFailedOps ⟨"new", 0, 3, 0, offlineError⟩).length
        = MAX_FAILED_OPERATIONS ∧
    addToRetryQueue fiftyFailedOps ⟨"new", 0, 3, 0, offlineError⟩
        = fiftyFailedOps.tail ++
            [("new", (⟨"new", 0, 3, 0, offlineError⟩ : FailedOperation))] ∧
    ([(⟨"a", 0, 3, 0, offlineError⟩ : FailedOperation)].foldl addToRetryQueue []).length
        ≤ MAX_FAILED_OPERATIONS := by
  have h := addToRetryQueue_bounded fiftyFailedOps
    [(⟨"a", 0, 3, 0, offlineError⟩ : FailedOperation)] ⟨"new", 0, 3, 0, offlineError⟩
  have h0 := addToRetryQueue_bounded ([] : List (String × FailedOperation))
    [(⟨"a", 0, 3, 0, offlineError⟩ : FailedOperation)] ⟨"new", 0, 3, 0, offlineError⟩
  have h2 := h.2 (by decide) (by decide) (by decide)
  exact ⟨h2.2, h2.1, h0.1 (by decide)⟩

theorem find_dbUpdateStore (store : List BookingRecord) (bookingId : ℚ) (ts : String)
    (g : ℚ) :
    (dbUpdateStore store bookingId ts g).find? (fun r => r.id = bookingId) =
      (store.find? (fun r => r.id = bookingId)).map (fun r => applyCheckInWrite r ts g) := by
  induction store with
  | nil => rfl
  | cons r rest ih =>
      simp only [dbUpdateStore, List.map_cons] at *
      by_cases h : r.id = bookingId
      · have h2 : (applyCheckInWrite r ts g).id = bookingId := by
          simp [applyCheckInWrite, h]
        simp [List.find?, h, h2]
      · simp [List.find?, h, ih]

theorem dbUpdateStore_idem (store : List BookingRecord) (bookingId : ℚ) (ts : String)
    (g : ℚ) :
    dbUpdateStore (dbUpdateStore store bookingId ts g) bookingId ts g =
      dbUpdateStore store bookingId ts g := by
  unfold dbUpdateStore
  rw [List.map_map]
  apply List.map_congr_left
  intro r _
  by_cases h : r.id = bookingId
  · simp [Function.comp, h, applyCheckInWrite]
  · simp [Function.comp, h]

/-- C3: replaying the same check-in payload twice is idempotent on the
record store: applying the attendance update of `checkInAttendee` a second
time with an identical request leaves the store (in particular the updated
record's `is_attended`, `attended_at` and `actual_num_guests`) exactly as
after the first application, for every network status and starting store. -/
theorem checkInAttendee_idempotent (net : NetworkStatus) (store : List BookingRecord)
    (request : CheckInRequest) :
    (checkInAttendee net (checkInAttendee net store request).store request).store =
      (checkInAttendee net store request).store := by
  by_cases h1 : request.actualGuests < 0
  · simp [checkInAttendee, h1]
  by_cases h2 : jsIsInteger request.actualGuests
  swap
  · simp [checkInAttendee, h1, h2]
  by_cases h3 : 999 < request.actualGuests
  · simp [checkInAttendee, h1, h2, h3]
  by_cases hnet : net = NetworkStatus.OFFLINE
  · simp [checkInAttendee, getCheckInStatus, h1, h2, h3, hnet]
  cases hf : store.find? (fun r => r.id = request.bookingId) with
  | none => simp [checkInAttendee, getCheckInStatus, h1, h2, h3, hnet, hf]
  | some r =>
      have hf2 := find_dbUpdateStore store request.bookingId request.timestamp
        request.actualGuests
      rw [hf] at hf2
      simp only [Option.map_some'] at hf2
      simp [checkInAttendee, getCheckInStatus, h1, h2, h3, hnet, hf, hf2,
        dbUpdateStore_idem]

/-- C6 (counterexample): on a record already attended whose stored
`actual_num_guests` is null, `checkInAttendee` echoes `previousCheckIn`
with `actualGuests = 0`, which is not the value read from the record
(null); so the echoed previous check-in is not always exactly the prior
fields. -/
theorem checkInAttendee_previousCheckIn_counterexample :
    (checkInAttendee NetworkStatus.ONLINE
        [⟨1, "QR1", "A", 5, true, some "T0", none⟩] ⟨1, 2, "T1"⟩).result.previousCheckIn
      = some ⟨some "T0", 0⟩ ∧
    (⟨1, "QR1", "A", 5, true, some "T0", none⟩ : BookingRecord).actual_num_guests = none ∧
    (none : Option ℚ) ≠ some (0 : ℚ) := by
  refine ⟨by decide, rfl, by decide⟩

/-- C6 (amended): on a valid request whose booking id resolves to a record,
`checkInAttendee` succeeds, reports `isDuplicateCheckIn` exactly when the
record was already attended, echoes the prior `attended_at` as read and the
prior `actual_num_guests` coalesced with `|| 0` (so a null prior guest
count is echoed as 0), performs the unconditional overwrite of
`is_attended`, `attended_at` and `actual_num_guests` in the store, and
omits `previousCheckIn` when the record was not yet attended. -/
theorem checkInAttendee_duplicate_detection (net : NetworkStatus)
    (store : List BookingRecord) (request : CheckInRequest) (r : BookingRecord)
    (hnet : net ≠ NetworkStatus.OFFLINE)
    (hfind : store.find? (fun b => b.id = request.bookingId) = some r)
    (h0 : ¬ request.actualGuests < 0) (hint : jsIsInteger request.actualGuests = true)
    (h999 : ¬ 999 < request.actualGuests) :
    (checkInAttendee net store request).result.success = true ∧
    (checkInAttendee net store request).result.isDuplicateCheckIn = some r.is_attended ∧
    (checkInAttendee net store request).result.previousCheckIn
      = (if r.is_attended then some ⟨r.attended_at, r.actual_num_guests.getD 0⟩
         else none) ∧
    (checkInAttendee net store request).store
      = dbUpdateStore store request.bookingId request.timestamp request.actualGuests ∧
    (∀ b ∈ (checkInAttendee net store request).store, b.id = request.bookingId →
      b.is_attended = true ∧ b.attended_at = some request.timestamp ∧
      b.actual_num_guests = some request.actualGuests) ∧
    (checkInAttendee net store request).updateInvoked = true := by
  have hmain : checkInAttendee net store request =
      ⟨⟨true, some (applyCheckInWrite r request.timestamp request.actualGuests), none,
        some r.is_attended,
        if r.is_attended then some ⟨r.attended_at, r.actual_num_guests.getD 0⟩
        else none⟩,
        dbUpdateStore store request.bookingId request.timestamp request.actualGuests,
        true⟩ := by
    simp [checkInAttendee, getCheckInStatus, h0, hint, h999, hnet, hfind]
  rw [hmain]
  refine ⟨rfl, rfl, rfl, rfl, ?_, rfl⟩
  intro b hb hid
  simp only [dbUpdateStore, List.mem_map] at hb
  obtain ⟨b0, _, hb0⟩ := hb
  by_cases h : b0.id = request.bookingId
  · rw [if_pos h] at hb0
    rw [← hb0]
    simp [applyCheckInWrite]
  · rw [if_neg h] at hb0
    rw [← hb0] at hid
    exact absurd hid h

/-- Witness for C6 on a not-yet-attended record: first-time check-in with
no previous data echoed. -/
theorem checkInAttendee_duplicate_detection_witness :
    (checkInAttendee NetworkStatus.ONLINE [⟨1, "QR1", "A", 5, false, none, none⟩]
        ⟨1, 3, "T1"⟩).result.success = true ∧
    (checkInAttendee NetworkStatus.ONLINE [⟨1, "QR1", "A", 5, false, none, none⟩]
        ⟨1, 3, "T1"⟩).result.isDuplicateCheckIn = some false ∧
    (checkInAttendee NetworkStatus.ONLINE [⟨1, "QR1", "A", 5, false, none, none⟩]
        ⟨1, 3, "T1"⟩).result.previousCheckIn = none := by
  have h := checkInAttendee_duplicate_detection NetworkStatus.ONLINE
    [⟨1, "QR1", "A", 5, false, none, none⟩] ⟨1, 3, "T1"⟩
    ⟨1, "QR1", "A", 5, false, none, none⟩ (by decide) (by decide) (by decide)
    (by decide) (by decide)
  exact ⟨h.1, h.2.1, by rw [h.2.2.1]; decide⟩

/-- C5 (counterexample): a request with `actualGuests = 1000` (not a valid
guest count, since 1000 > 999) made while the network status is OFFLINE is
not rejected with a VALIDATION error: `processCheckIn` only validates the
sign and integrality itself, the resilience wrapper throws its NETWORK
error before `checkInAttendee` and its 999-bound check ever run, and the
invalid payload is persisted to the durable offline queue. -/
theorem processCheckIn_validation_counterexample :
    (processCheckIn NetworkStatus.OFFLINE [] [] 1 1000 "T1" "op1" 5).result.error.map
        (fun e => e.category) = some ErrorCategory.NETWORK ∧
    (processCheckIn NetworkStatus.OFFLINE [] [] 1 1000 "T1" "op1" 5).queue
      = [⟨"op1", OpType.checkin, OpData.checkinData 1 1000 "T1", 5, 0, 3⟩] ∧
    ¬ ((1000 : ℚ) ≤ 999) := by
  refine ⟨by decide, by decide, by decide⟩

/-- C5 (amended): a non-positive booking id, or a negative or non-integer
guest count, is rejected by the validation of `processCheckIn` itself with
a VALIDATION error, with the store update never invoked and nothing added
to the durable offline queue, for every network status; a guest count above
999 with a positive booking id is likewise rejected with a VALIDATION error
and no update or queueing, but only when the network status is not OFFLINE
(when OFFLINE, the NETWORK fast-fail fires first and the request is queued,
as the counterexample shows); a positive non-integer booking id is not
covered by any validation. -/
theorem processCheckIn_validation (net : NetworkStatus) (store : List BookingRecord)
    (queue : List OfflineOperation) (bookingId actualGuests : ℚ) (now newOpId : String)
    (opNow : Nat) :
    (bookingId ≤ 0 ∨ actualGuests < 0 ∨ jsIsInteger actualGuests = false →
      (processCheckIn net store queue bookingId actualGuests now newOpId opNow).result.success
          = false ∧
      (processCheckIn net store queue bookingId actualGuests now newOpId opNow).result.error.map
          (fun e => e.category) = some ErrorCategory.VALIDATION ∧
      (processCheckIn net store queue bookingId actualGuests now newOpId opNow).updateInvoked
          = false ∧
      (processCheckIn net store queue bookingId actualGuests now newOpId opNow).queue = queue ∧
      (processCheckIn net store queue bookingId actualGuests now newOpId opNow).store = store) ∧
    (net ≠ NetworkStatus.OFFLINE → ¬ bookingId ≤ 0 → 999 < actualGuests →
      (processCheckIn net store queue bookingId actualGuests now newOpId opNow).result.success
          = false ∧
      (processCheckIn net store queue bookingId actualGuests now newOpId opNow).result.error.map
          (fun e => e.category) = some ErrorCategory.VALIDATION ∧
      (processCheckIn net store queue bookingId actualGuests now newOpId opNow).updateInvoked
          = false ∧
      (processCheckIn net store queue bookingId actualGuests now newOpId opNow).queue = queue ∧
      (processCheckIn net store queue bookingId actualGuests now newOpId opNow).store = store) := by
  constructor
  · intro h
    by_cases hb : bookingId = 0 ∨ bookingId ≤ 0
    · simp [processCheckIn, hb]
      decide
    · rcases h with h | h | h
      · exact absurd (Or.inr h) hb
      · simp [processCheckIn, hb, h]
        decide
      · simp [processCheckIn, hb, h]
        decide
  · intro hnet hb h999
    have hb2 : ¬ (bookingId = 0 ∨ bookingId ≤ 0) := by
      rintro (h | h)
      · exact hb (le_of_eq h)
      · exact hb h
    by_cases hint : jsIsInteger actualGuests = true
    · have hneg : ¬ actualGuests < 0 := by
        intro h
        have : (999 : ℚ) < 0 := h999.trans h
        norm_num at this
      simp [processCheckIn, checkInAttendee, hb2, hnet, hneg, hint, h999]
      decide
    · have h : jsIsInteger actualGuests = false := by
        simpa using hint
      simp [processCheckIn, hb2, h]
      decide

/-- Witness for C5 at a negative guest count and at an over-limit guest
count while online. -/
theorem processCheckIn_validation_witness :
    (processCheckIn NetworkStatus.ONLINE [] [] 1 (-1) "T1" "op1" 5).result.error.map
        (fun e => e.category) = some ErrorCategory.VALIDATION ∧
    (processCheckIn NetworkStatus.ONLINE [] [] 1 (-1) "T1" "op1" 5).queue = [] ∧
    (processCheckIn NetworkStatus.ONLINE [] [] 1 1000 "T1" "op1" 5).result.error.map
        (fun e => e.category) = some ErrorCategory.VALIDATION ∧
    (processCheckIn NetworkStatus.ONLINE [] [] 1 1000 "T1" "op1" 5).updateInvoked = false := by
  have h1 := (processCheckIn_validation NetworkStatus.ONLINE [] [] 1 (-1) "T1" "op1" 5).1
    (Or.inr (Or.inl (by norm_num)))
  have h2 := (processCheckIn_validation NetworkStatus.ONLINE [] [] 1 1000 "T1" "op1" 5).2
    (by decide) (by norm_num) (by norm_num)
  exact ⟨h1.2.1, h1.2.2.2.1, h2.2.1, h2.2.2.1⟩

theorem mem_removeOfflineOperation (ops : List OfflineOperation) (operationId : String)
    (o : OfflineOperation) (h : o ∈ removeOfflineOperation ops operationId) :
    o.id ≠ operationId := by
  unfold removeOfflineOperation at h
  have := (List.mem_filter.mp h).2
  simpa using this

theorem find_updateFirst_bump (ops : List OfflineOperation) (operationId : String)
    (op : OfflineOperation)
    (hfind : ops.find? (fun o => o.id = operationId) = some op) :
    (updateFirst ops operationId
        (fun o => { o with retryCount := o.retryCount + 1 })).find?
        (fun o => o.id = operationId) = some { op with retryCount := op.retryCount + 1 } := by
  induction ops with
  | nil => simp [List.find?] at hfind
  | cons o rest ih =>
      by_cases h : o.id = operationId
      · rw [List.find?_cons_of_pos _ (by simpa using h)] at hfind
        injection hfind with hop
        subst hop
        unfold updateFirst
        rw [if_pos h]
        exact List.find?_cons_of_pos _ (by simpa using h)
      · rw [List.find?_cons_of_neg _ (by simpa using h)] at hfind
        unfold updateFirst
        rw [if_neg h]
        rw [List.find?_cons_of_neg _ (by simpa using h)]
        exact ih hfind

theorem iterIncrement_gone (n : Nat) :
    ∀ (ops : List OfflineOperation) (operationId : String) (op : OfflineOperation),
      ops.find? (fun o => o.id = operationId) = some op →
      op.retryCount < op.maxRetries →
      op.maxRetries - op.retryCount = n →
      ∀ o ∈ iterIncrement n ops operationId, o.id ≠ operationId := by
  induction n with
  | zero =>
      intro ops operationId op _ hlt hn
      omega
  | succ k ih =>
      intro ops operationId op hfind hlt hn o
      by_cases hterm : op.maxRetries ≤ op.retryCount + 1
      · have hk : k = 0 := by omega
        subst hk
        intro ho
        simp only [iterIncrement, incrementRetryCount, hfind, if_pos hterm] at ho
        exact mem_removeOfflineOperation ops operationId o ho
      · intro ho
        simp only [iterIncrement, incrementRetryCount, hfind, if_neg hterm] at ho
        have hfind2 := find_updateFirst_bump ops operationId op hfind
        exact ih _ operationId { op with retryCount := op.retryCount + 1 } hfind2
          (by simp; omega) (by simp; omega) o ho

/-- C4: for every operation id present in the durable queue,
`incrementRetryCount` increments that entry's retry count; when the
incremented count reaches `maxRetries` the entry is removed from storage and
the call returns `false`, otherwise the increment is persisted and the call
returns `true`; consequently, after exactly the remaining budget of failed
replay attempts the operation is gone from storage and is never returned by
`getRetryableOperations` again. -/
theorem incrementRetryCount_budget (ops : List OfflineOperation) (operationId : String)
    (op : OfflineOperation)
    (hfind : ops.find? (fun o => o.id = operationId) = some op) :
    (op.maxRetries ≤ op.retryCount + 1 →
      (incrementRetryCount ops operationId).1 = false ∧
      (incrementRetryCount ops operationId).2 = removeOfflineOperation ops operationId ∧
      ∀ o ∈ getRetryableOperations (incrementRetryCount ops operationId).2,
        o.id ≠ operationId) ∧
    (op.retryCount + 1 < op.maxRetries →
      (incrementRetryCount ops operationId).1 = true ∧
      (incrementRetryCount ops operationId).2.find? (fun o => o.id = operationId) =
        some { op with retryCount := op.retryCount + 1 }) ∧
    (op.retryCount < op.maxRetries →
      ∀ o ∈ getRetryableOperations
          (iterIncrement (op.maxRetries - op.retryCount) ops operationId),
        o.id ≠ operationId) := by
  refine ⟨?_, ?_, ?_⟩
  · intro hterm
    refine ⟨?_, ?_, ?_⟩
    · simp [incrementRetryCount, hfind, hterm]
    · simp [incrementRetryCount, hfind, hterm]
    · intro o ho
      simp only [incrementRetryCount, hfind, if_pos hterm] at ho
      have h2 : o ∈ removeOfflineOperation ops operationId ∧
          o.retryCount < o.maxRetries := by
        simpa [getRetryableOperations] using ho
      exact mem_removeOfflineOperation ops operationId o h2.1
  · intro hmore
    have hnterm : ¬ op.maxRetries ≤ op.retryCount + 1 := by omega
    constructor
    · simp [incrementRetryCount, hfind, hnterm]
    · simp only [incrementRetryCount, hfind, if_neg hnterm]
      exact find_updateFirst_bump ops operationId op hfind
  · intro hlt o ho
    have h2 : o ∈ iterIncrement (op.maxRetries - op.retryCount) ops operationId ∧
        o.retryCount < o.maxRetries := by
      simpa [getRetryableOperations] using ho
    exact iterIncrement_gone (op.maxRetries - op.retryCount) ops operationId op hfind
      hlt rfl o h2.1

/-- Witness for C4 on a one-entry queue at the retry budget boundary:
incrementing a fresh entry persists the bump, and three increments remove
it entirely. -/
theorem incrementRetryCount_budget_witness :
    (incrementRetryCount [⟨"a", OpType.checkin, OpData.checkinData 1 2 "t", 0, 0, 3⟩]
        "a").1 = true ∧
    (incrementRetryCount [⟨"a", OpType.checkin, OpData.checkinData 1 2 "t", 0, 2, 3⟩]
        "a").1 = false ∧
    (incrementRetryCount [⟨"a", OpType.checkin, OpData.checkinData 1 2 "t", 0, 2, 3⟩]
        "a").2 = [] ∧
    iterIncrement 3 [⟨"a", OpType.checkin, OpData.checkinData 1 2 "t", 0, 0, 3⟩] "a" = [] := by
  have h1 := incrementRetryCount_budget
    [⟨"a", OpType.checkin, OpData.checkinData 1 2 "t", 0, 0, 3⟩] "a"
    ⟨"a", OpType.checkin, OpData.checkinData 1 2 "t", 0, 0, 3⟩ (by decide)
  have h2 := incrementRetryCount_budget
    [⟨"a", OpType.checkin, OpData.checkinData 1 2 "t", 0, 2, 3⟩] "a"
    ⟨"a", OpType.checkin, OpData.checkinData 1 2 "t", 0, 2, 3⟩ (by decide)
  refine ⟨(h1.2.1 (by decide)).1, (h2.1 (by decide)).1, ?_, by decide⟩
  rw [(h2.1 (by decide)).2.1]
  decide

/-- C2 (counterexample): a queued checkin operation whose replay responds
with HTTP 409 is NOT removed from the durable queue by the drain: after
`triggerSync` it is still stored, with its retry count incremented, and it
is still returned by `getRetryableOperations`, so the next drain will retry
it. -/
theorem triggerSync_conflict_counterexample :
    (triggerSync 0 (fun _ => FetchOutcome.response 409)
        ⟨true, false, [⟨"op-1", OpType.checkin, OpData.checkinData 1 3 "T", 0, 0, 3⟩],
          []⟩).state.ops
      = [⟨"op-1", OpType.checkin, OpData.checkinData 1 3 "T", 0, 1, 3⟩] ∧
    getRetryableOperations
        (triggerSync 0 (fun _ => FetchOutcome.response 409)
          ⟨true, false, [⟨"op-1", OpType.checkin, OpData.checkinData 1 3 "T", 0, 0, 3⟩],
            []⟩).state.ops
      = [⟨"op-1", OpType.checkin, OpData.checkinData 1 3 "T", 0, 1, 3⟩] := by
  refine ⟨by decide, by decide⟩

/-- C2 (amended): during a drain, a queued checkin operation whose replay
responds with HTTP 409 — or any other non-2xx status below 500 — is not
removed immediately: its retry count is incremented (`incrementRetryCount`
removes it only once the count reaches its `maxRetries` budget) and no
follow-up timeout retry is scheduled, since the conflict and client-error
results carry `retryAfter = 0`, which is falsy; the operation therefore
stays in the durable queue, still retryable by later drains, until its
budget is exhausted. -/
theorem triggerSync_client_error_behavior (rand : ℚ) (status : Nat)
    (op : OfflineOperation) (sched : List (String × ℚ))
    (hty : op.type = OpType.checkin)
    (hretry : op.retryCount < op.maxRetries)
    (h2xx : ¬ (200 ≤ status ∧ status < 300)) (h5xx : status < 500) :
    (triggerSync rand (fun _ => FetchOutcome.response status)
        ⟨true, false, [op], sched⟩).state.ops
      = (if op.maxRetries ≤ op.retryCount + 1 then []
         else [{ op with retryCount := op.retryCount + 1 }]) ∧
    (triggerSync rand (fun _ => FetchOutcome.response status)
        ⟨true, false, [op], sched⟩).state.scheduled = sched := by
  have hsnap : getRetryableOperations [op] = [op] := by
    simp [getRetryableOperations, hretry]
  have hfind : [op].find? (fun o => o.id = op.id) = some op := by
    simp [List.find?]
  have hinc : incrementRetryCount [op] op.id =
      (if op.maxRetries ≤ op.retryCount + 1 then ((false, []) : Bool × List OfflineOperation)
       else (true, [{ op with retryCount := op.retryCount + 1 }])) := by
    by_cases hterm : op.maxRetries ≤ op.retryCount + 1
    · simp [incrementRetryCount, hfind, hterm, removeOfflineOperation]
    · simp [incrementRetryCount, hfind, hterm, updateFirst]
  by_cases h409 : status = 409
  · subst h409
    have hres : syncOperation rand (fun _ => FetchOutcome.response 409) op =
        ⟨false, op.id, some "Record already checked in", some 0⟩ := by
      simp [syncOperation, hty, syncCheckInOperation]
    by_cases hterm : op.maxRetries ≤ op.retryCount + 1 <;>
      simp [triggerSync, hsnap, triggerSyncLoop, hres, hinc, hterm, jsTruthyOptNum]
  · have hres : syncOperation rand (fun _ => FetchOutcome.response status) op =
        ⟨false, op.id, some "Client error", some 0⟩ := by
      have h5 : ¬ 500 ≤ status := by omega
      simp [syncOperation, hty, syncCheckInOperation, h2xx, h5, h409]
    by_cases hterm : op.maxRetries ≤ op.retryCount + 1 <;>
      simp [triggerSync, hsnap, triggerSyncLoop, hres, hinc, hterm, jsTruthyOptNum]

/-- Witness for C2 at a concrete 404 replay of a fresh operation. -/
theorem triggerSync_client_error_behavior_witness :
    (triggerSync 0 (fun _ => FetchOutcome.response 404)
        ⟨true, false, [⟨"x", OpType.checkin, OpData.checkinData 1 2 "t", 0, 0, 3⟩],
          []⟩).state.ops
      = [⟨"x", OpType.checkin, OpData.checkinData 1 2 "t", 0, 1, 3⟩] ∧
    (triggerSync 0 (fun _ => FetchOutcome.response 404)
        ⟨true, false, [⟨"x", OpType.checkin, OpData.checkinData 1 2 "t", 0, 0, 3⟩],
          []⟩).state.scheduled = [] := by
  have h := triggerSync_client_error_behavior 0 404
    ⟨"x", OpType.checkin, OpData.checkinData 1 2 "t", 0, 0, 3⟩ [] rfl (by decide)
    (by omega) (by omega)
  refine ⟨?_, h.2⟩
  rw [h.1]
  decide

/-- C10: `getSyncStats` always reports `totalOperations` and
`pendingOperations` both equal to the number of persisted operations whose
retry count is below their budget, and hard-codes `successfulSyncs = 0` and
`failedSyncs = 0` regardless of the actual replay history; the stats
returned by `triggerSync` are recomputed from the storage left after the
pass, and the sync listeners are notified with exactly those stats after
every drain pass (and not notified on the early return taken while a drain
is in flight or the device is offline). -/
theorem getSyncStats_hardcoded_counters (rand : ℚ)
    (respond : OfflineOperation → FetchOutcome) (st : SyncState) :
    getSyncStats st.ops =
      ⟨(st.ops.filter (fun op => op.retryCount < op.maxRetries)).length, 0, 0,
        (st.ops.filter (fun op => op.retryCount < op.maxRetries)).length⟩ ∧
    (triggerSync rand respond st).stats =
      getSyncStats (triggerSync rand respond st).state.ops ∧
    (triggerSync rand respond st).notified =
      (if st.isSyncing ∨ ¬ st.isOnline then none
       else some (getSyncStats (triggerSync rand respond st).state.ops)) := by
  refine ⟨rfl, ?_, ?_⟩
  · cases hsy : st.isSyncing <;> cases hon : st.isOnline <;>
      simp [triggerSync, hsy, hon]
  · cases hsy : st.isSyncing <;> cases hon : st.isOnline <;>
      simp [triggerSync, hsy, hon]

/-- C9 (counterexample): a stored string that is valid JSON but not an
array — here the string of the number 5 — is returned by
`getOfflineOperations` as the parsed non-list value, not as an (empty)
operation list; corrupt storage of this shape is therefore not treated as
no pending operations. -/
theorem getOfflineOperations_nonarray_counterexample :
    getOfflineOperations (some "5") = Json.num 5 ∧
    jsonIsArr (getOfflineOperations (some "5")) = false := by
  exact ⟨rfl, rfl⟩

/-- C9 (amended): `getOfflineOperations` is total (the read and parse are
wrapped in a try/catch): a missing or empty stored value yields the empty
list, a stored string that fails to parse as JSON yields the empty list
(corrupt-beyond-parsing storage is treated as no pending operations), and a
stored string that parses yields the parsed JSON value unchecked — which is
a list only when the JSON is an array, as the counterexample shows. -/
theorem getOfflineOperations_graceful (s : String) :
    getOfflineOperations none = Json.arr [] ∧
    getOfflineOperations (some "") = Json.arr [] ∧
    (jsonParse s = none → getOfflineOperations (some s) = Json.arr []) ∧
    (∀ v, s ≠ "" → jsonParse s = some v → getOfflineOperations (some s) = v) := by
  refine ⟨rfl, rfl, ?_, ?_⟩
  · intro h
    by_cases hs : s = ""
    · subst hs; rfl
    · simp [getOfflineOperations, hs, h]
  · intro v hs h
    simp [getOfflineOperations, hs, h]

/-- Witness for C9 on a malformed stored string. -/
theorem getOfflineOperations_graceful_witness :
    getOfflineOperations (some "not json") = Json.arr [] := by
  exact (getOfflineOperations_graceful "not json").2.2.1 rfl
